import Mathlib

/-!
Verification of the k8s-mcp-server command validation and execution pipeline.

This file gives a shallow embedding, in Lean, of the Python modules
`k8s_mcp_server/tools.py`, `k8s_mcp_server/security.py`,
`k8s_mcp_server/cli_executor.py` and `k8s_mcp_server/app.py`:
pure functions become Lean functions, functions that may raise become
`Except String` computations (the error string is the exception message),
and the effectful executors are modelled as functions of the outcome of the
one subprocess call they make.  Python standard-library primitives used by
the code (`shlex.split`, `str.startswith`, `in`, `str.lower`, `str.strip`,
`str.split`, slicing, `base64.b64decode`, UTF-8 decoding) are embedded
explicitly below.
-/

deriving instance DecidableEq for Except

namespace K8sMcp

/-- The single-quote character (written via its code point so that quote
characters never appear inside string literals in this file). -/
def squote : Char := Char.ofNat 39

/-- The double-quote character. -/
def dquote : Char := Char.ofNat 34

/-- The backslash character. -/
def bslash : Char := Char.ofNat 92

/-- A one-character string holding a single quote. -/
def sqs : String := String.singleton squote

/-- A one-character string holding a backslash. -/
def bss : String := String.singleton bslash

/-- Embedding of Python `s.startswith(p)`. -/
def pyStartsWith (s p : String) : Bool := p.data.isPrefixOf s.data

/-- Auxiliary scan for the Python substring test `needle in hay`. -/
def containsAux (needle : List Char) : List Char → Bool
  | [] => needle.isEmpty
  | c :: t => needle.isPrefixOf (c :: t) || containsAux needle t

/-- Embedding of the Python substring test `sub in s`. -/
def containsSubstr (s sub : String) : Bool := containsAux sub.data s.data

/-- Embedding of Python `s.lower()` (over the ASCII range, which covers
every signature string the code compares against). -/
def pyLower (s : String) : String := ⟨s.data.map Char.toLower⟩

/-- The whitespace characters stripped by Python `str.strip()` (ASCII). -/
def isPyWs (c : Char) : Bool :=
  c = ' ' || c = '\t' || c = '\n' || c = '\r' || c = Char.ofNat 11 || c = Char.ofNat 12

/-- Embedding of Python `s.strip()`. -/
def pyStrip (s : String) : String :=
  ⟨((s.data.dropWhile isPyWs).reverse.dropWhile isPyWs).reverse⟩

/-- Embedding of Python slicing `s[:n]`. -/
def pySlice (s : String) (n : Nat) : String := ⟨s.data.take n⟩

/-- Auxiliary scan for Python `str.split()` with no separator argument. -/
def pySplitWsAux : List Char → List Char → List String
  | [], cur => if cur.isEmpty then [] else [⟨cur.reverse⟩]
  | c :: t, cur =>
    if isPyWs c then
      if cur.isEmpty then pySplitWsAux t [] else ⟨cur.reverse⟩ :: pySplitWsAux t []
    else pySplitWsAux t (c :: cur)

/-- Embedding of Python `s.split()`: split on whitespace runs, dropping
empty fields. -/
def pySplitWs (s : String) : List String := pySplitWsAux s.data []

/-! ### `shlex.split`

`shlex.split` is the tokenizer used throughout the code base.  It is a
POSIX-mode lexer: unquoted backslash escapes the next character, single
quotes are fully literal, inside double quotes a backslash escapes only a
double quote or a backslash.  An unterminated quote raises
`ValueError("No closing quotation")`; a trailing escape raises
`ValueError("No escaped character")`.  The embedding is a character-level
state machine with one mode per lexer state. -/

/-- Lexer modes of the `shlex.split` state machine: outside quotes, inside
single quotes, inside double quotes, after a backslash outside quotes, and
after a backslash inside double quotes. -/
inductive ShMode where
  | norm | inS | inD | escNorm | escD
deriving DecidableEq, Repr

/-- Whitespace recognized by `shlex` (its `whitespace` attribute). -/
def isShlexWs (c : Char) : Bool :=
  c = ' ' || c = '\t' || c = '\r' || c = '\n'

/-- The `shlex.split` state machine.  `cur = none` means no token has been
started (so nothing is emitted at a separator); entering a quote starts a
token even if the quote body is empty. -/
def shlexAux : List Char → ShMode → Option String → List String →
    Except String (List String)
  | [], .norm, cur, acc => .ok (acc ++ cur.toList)
  | [], .inS, _, _ => .error "No closing quotation"
  | [], .inD, _, _ => .error "No closing quotation"
  | [], .escNorm, _, _ => .error "No escaped character"
  | [], .escD, _, _ => .error "No escaped character"
  | c :: rest, .norm, cur, acc =>
    if isShlexWs c then shlexAux rest .norm none (acc ++ cur.toList)
    else if c = bslash then shlexAux rest .escNorm (some (cur.getD "")) acc
    else if c = squote then shlexAux rest .inS (some (cur.getD "")) acc
    else if c = dquote then shlexAux rest .inD (some (cur.getD "")) acc
    else shlexAux rest .norm (some ((cur.getD "").push c)) acc
  | c :: rest, .inS, cur, acc =>
    if c = squote then shlexAux rest .norm cur acc
    else shlexAux rest .inS (some ((cur.getD "").push c)) acc
  | c :: rest, .inD, cur, acc =>
    if c = dquote then shlexAux rest .norm cur acc
    else if c = bslash then shlexAux rest .escD cur acc
    else shlexAux rest .inD (some ((cur.getD "").push c)) acc
  | c :: rest, .escNorm, cur, acc =>
    shlexAux rest .norm (some ((cur.getD "").push c)) acc
  | c :: rest, .escD, cur, acc =>
    if c = dquote || c = bslash then
      shlexAux rest .inD (some ((cur.getD "").push c)) acc
    else
      shlexAux rest .inD (some (((cur.getD "").push bslash).push c)) acc

/-- Embedding of Python `shlex.split(s)`; `.error` is the raised
`ValueError`. -/
def shlexSplit (s : String) : Except String (List String) :=
  shlexAux s.data .norm none []

/-! ## `k8s_mcp_server/tools.py` -/

namespace Tools

/-- `ALLOWED_UNIX_COMMANDS` from `tools.py`: the Unix commands allowed in
a pipe. -/
def ALLOWED_UNIX_COMMANDS : List String :=
  ["cat", "ls", "cd", "pwd", "cp", "mv", "rm", "mkdir", "touch", "chmod",
   "chown",
   "grep", "sed", "awk", "cut", "sort", "uniq", "wc", "head", "tail", "tr",
   "find",
   "ps", "top", "df", "du", "uname", "whoami", "date", "which", "echo",
   "ping", "ifconfig", "netstat", "curl", "wget", "dig", "nslookup", "ssh",
   "scp",
   "man", "less", "tar", "gzip", "gunzip", "zip", "unzip", "xargs", "jq",
   "yq", "tee"]

/-- `ALLOWED_K8S_TOOLS` from `tools.py`. -/
def ALLOWED_K8S_TOOLS : List String := ["kubectl", "istioctl", "helm", "argocd"]

/-- The fields of the `CommandResult` TypedDict that the claims are about
(`error` details duplicate `output`, and `execution_time` is wall-clock
time, outside the embedding). -/
structure CommandResult where
  status : String
  output : String
  exitCode : Option Int := none
deriving DecidableEq, Repr

/-- `is_valid_k8s_tool` from `tools.py`.  It calls `shlex.split` on its
argument, so it can raise `ValueError`; the `Except` layer records that. -/
def is_valid_k8s_tool (command : String) : Except String Bool :=
  match shlexSplit command with
  | .error e => .error e
  | .ok cmd_parts =>
    if cmd_parts.isEmpty then .ok false
    else .ok (decide (cmd_parts.headD "" ∈ ALLOWED_K8S_TOOLS))

/-- `validate_unix_command` from `tools.py`. -/
def validate_unix_command (command : String) : Except String Bool :=
  match shlexSplit command with
  | .error e => .error e
  | .ok cmd_parts =>
    if cmd_parts.isEmpty then .ok false
    else .ok (decide (cmd_parts.headD "" ∈ ALLOWED_UNIX_COMMANDS))

/-- The quote-tracking scan of `is_pipe_command` from `tools.py`: the
first component is the previous character (the Python loop consults
`command[i - 1]`), the second and third are `in_single_quote` and
`in_double_quote`. -/
def isPipeAux : Option Char → Bool → Bool → List Char → Bool
  | _, _, _, [] => false
  | prev, inS, inD, c :: rest =>
    if c = squote && prev ≠ some bslash then isPipeAux (some c) (!inS) inD rest
    else if c = dquote && prev ≠ some bslash then
      isPipeAux (some c) inS (!inD) rest
    else if c = '|' && !inS && !inD then true
    else isPipeAux (some c) inS inD rest

/-- `is_pipe_command` from `tools.py`. -/
def is_pipe_command (command : String) : Bool :=
  isPipeAux none false false command.data

/-- The accumulating scan of `split_pipe_command` from `tools.py`.  At an
unquoted `|` the stripped current segment is appended even when empty; at
the end of the string it is appended only when nonempty. -/
def splitPipeAux : Option Char → Bool → Bool → String → List String →
    List Char → List String
  | _, _, _, cur, acc, [] =>
    if pyStrip cur = "" then acc else acc ++ [pyStrip cur]
  | prev, inS, inD, cur, acc, c :: rest =>
    if c = squote && prev ≠ some bslash then
      splitPipeAux (some c) (!inS) inD (cur.push c) acc rest
    else if c = dquote && prev ≠ some bslash then
      splitPipeAux (some c) inS (!inD) (cur.push c) acc rest
    else if c = '|' && !inS && !inD then
      splitPipeAux (some c) inS inD "" (acc ++ [pyStrip cur]) rest
    else splitPipeAux (some c) inS inD (cur.push c) acc rest

/-- `split_pipe_command` from `tools.py`. -/
def split_pipe_command (pipe_command : String) : List String :=
  splitPipeAux none false false "" [] pipe_command.data

/-- The possible outcomes of the one `create_subprocess_shell` call an
executor makes: the process completed with a return code and decoded
stdout/stderr, the `wait_for` timed out, or spawning raised. -/
inductive ProcOutcome where
  | completed (returncode : Int) (stdout stderr : String)
  | timeout
  | spawnError (msg : String)
deriving DecidableEq, Repr

/-- The configuration values the executors read (`config.py` settings:
`MAX_OUTPUT_SIZE`, `DEFAULT_TIMEOUT`, `K8S_CONTEXT`, `K8S_NAMESPACE`). -/
structure Config where
  maxOutputSize : Nat
  timeoutSecs : Nat
  context : Option String
  k8sNamespace : String
deriving DecidableEq, Repr

/-- The default configuration (`K8S_MCP_MAX_OUTPUT_SIZE=100000`,
`K8S_MCP_TIMEOUT=300`, no context, namespace `default`). -/
def defaultConfig : Config :=
  { maxOutputSize := 100000, timeoutSecs := 300, context := none,
    k8sNamespace := "default" }

set_option linter.unusedVariables false in
/-- `execute_piped_command` from `tools.py`, as a function of the
outcome of the `create_subprocess_shell(pipe_command, ...)` call it
makes: the timeout path kills the process and returns a timeout error
result, the completed path truncates oversized stdout and classifies a
non-zero exit as an error result, and a raised exception is caught and
reported.  (`execution_time`, and the structured `error` dict - whose
message and command fields duplicate `output` and `pipe_command` - are
not modelled, so `pipe_command` does not appear in the result.) -/
def execute_piped_command (cfg : Config) (pipe_command : String)
    (proc : ProcOutcome) : CommandResult :=
  match proc with
  | .timeout =>
    { status := "error",
      output := "Command timed out after " ++ toString cfg.timeoutSecs
        ++ " seconds" }
  | .spawnError msg =>
    { status := "error", output := "Failed to execute command: " ++ msg }
  | .completed rc stdout stderr =>
    let stdout_str :=
      if stdout.length > cfg.maxOutputSize then
        pySlice stdout cfg.maxOutputSize ++ "\n... (output truncated)"
      else stdout
    if rc ≠ 0 then
      { status := "error",
        output := if stderr = "" then "Command failed with no error output"
          else stderr,
        exitCode := some rc }
    else
      { status := "success", output := stdout_str, exitCode := some rc }

end Tools

/-! ## `k8s_mcp_server/security.py` -/

namespace Security

open Tools

/-- `DANGEROUS_COMMANDS` from `security.py`, as an association list keyed
by CLI tool. -/
def DANGEROUS_COMMANDS : List (String × List String) :=
  [("kubectl",
    ["kubectl delete", "kubectl drain", "kubectl replace --force",
     "kubectl exec", "kubectl port-forward", "kubectl cp"]),
   ("istioctl",
    ["istioctl experimental", "istioctl proxy-config", "istioctl dashboard"]),
   ("helm",
    ["helm delete", "helm uninstall", "helm rollback", "helm upgrade"]),
   ("argocd",
    ["argocd app delete", "argocd cluster rm", "argocd repo rm",
     "argocd app set"])]

/-- `SAFE_PATTERNS` from `security.py`. -/
def SAFE_PATTERNS : List (String × List String) :=
  [("kubectl",
    ["kubectl delete pod", "kubectl delete deployment",
     "kubectl delete service", "kubectl delete configmap",
     "kubectl delete secret",
     "kubectl exec --help", "kubectl exec -it",
     "kubectl port-forward --help", "kubectl cp --help"]),
   ("istioctl",
    ["istioctl experimental -h", "istioctl experimental --help",
     "istioctl proxy-config --help", "istioctl dashboard --help"]),
   ("helm",
    ["helm delete --help", "helm uninstall --help", "helm rollback --help",
     "helm upgrade --help"]),
   ("argocd",
    ["argocd app delete --help", "argocd cluster rm --help",
     "argocd repo rm --help", "argocd app set --help"])]

/-- `is_safe_exec_command` from `security.py`: substring heuristics on the
raw command string.  `has_interactive` looks for `-i`, `--stdin`, `-it` or
`-ti` anywhere in the string; `has_dangerous_shell` looks for a bare shell
after ` -- ` (the string is extended by one space first, so a trailing
shell name also matches). -/
def is_safe_exec_command (command : String) : Bool :=
  if ¬ pyStartsWith command "kubectl exec" then true
  else
    let has_interactive := containsSubstr command "-i"
      || containsSubstr command "--stdin"
      || containsSubstr command "-it" || containsSubstr command "-ti"
    let has_dangerous_shell :=
      [" -- sh", " -- bash", " -- /bin/sh", " -- /bin/bash"].any
        (fun pat => containsSubstr (command ++ " ") pat)
    (has_interactive && !has_dangerous_shell) || !has_interactive

/-- `validate_k8s_command` from `security.py`.  `.error` is the message of
the raised `ValueError` (either one raised explicitly or one propagated
out of `shlex.split`); the nested kubectl-exec `if` of the source is
flattened into one conjunction. -/
def validate_k8s_command (command : String) : Except String Unit :=
  match shlexSplit command with
  | .error e => .error e
  | .ok cmd_parts =>
    if cmd_parts.isEmpty then .error "Empty command"
    else
      let cli_tool := cmd_parts.headD ""
      match is_valid_k8s_tool cli_tool with
      | .error e => .error e
      | .ok valid =>
        if ¬ valid then
          .error "Command must start with a supported CLI tool: kubectl, istioctl, helm, argocd"
        else if cmd_parts.length < 2 then
          .error ("Command must include a " ++ cli_tool ++ " action")
        else if cli_tool = "kubectl" ∧ "exec" ∈ cmd_parts
            ∧ ¬ is_safe_exec_command command then
          .error "Interactive shells via kubectl exec are restricted. Use explicit commands or proper flags (-it, --command, etc)."
        else
          match DANGEROUS_COMMANDS.lookup cli_tool with
          | none => .ok ()
          | some dangerous_list =>
            match dangerous_list.find? (fun d => pyStartsWith command d) with
            | none => .ok ()
            | some dangerous_cmd =>
              if ((SAFE_PATTERNS.lookup cli_tool).getD []).any
                  (fun p => pyStartsWith command p) then
                .ok ()
              else
                .error ("This command (" ++ dangerous_cmd
                  ++ ") is restricted for safety reasons. Please use a more specific form with resource type and name.")

/-- The loop over the pipe segments after the first in
`validate_pipe_command` from `security.py` (`enumerate(commands[1:], 1)`);
`i` is the 1-based position of the head segment. -/
def pipeSegLoop : Nat → List String → Except String Unit
  | _, [] => .ok ()
  | i, cmd :: rest =>
    match shlexSplit cmd with
    | .error e => .error e
    | .ok cmd_parts =>
      if cmd_parts.isEmpty then
        .error ("Empty command at position " ++ toString i ++ " in pipe")
      else
        match validate_unix_command cmd with
        | .error e => .error e
        | .ok ok =>
          if ¬ ok then
            .error ("Command " ++ sqs ++ cmd_parts.headD "" ++ sqs
              ++ " at position " ++ toString i
              ++ " in pipe is not allowed. Only kubectl, istioctl, helm, argocd commands and basic Unix utilities are permitted.")
          else pipeSegLoop (i + 1) rest

/-- `validate_pipe_command` from `security.py`. -/
def validate_pipe_command (pipe_command : String) : Except String Unit :=
  let commands := split_pipe_command pipe_command
  if commands.isEmpty then .error "Empty command"
  else
    match validate_k8s_command (commands.headD "") with
    | .error e => .error e
    | .ok _ => pipeSegLoop 1 commands.tail

/-- `validate_command` from `security.py`: the public entry point. -/
def validate_command (command : String) : Except String Unit :=
  if is_pipe_command command then validate_pipe_command command
  else validate_k8s_command command

end Security

/-! ## `k8s_mcp_server/cli_executor.py`

This module repeats the validation layer with its own (smaller)
dangerous/safe tables and is the path actually taken by
`execute_command`.  Raised `CommandValidationError` /
`CommandExecutionError` / propagated `ValueError` are all modelled as the
`.error` case carrying the message. -/

namespace CliExecutor

open Tools

/-- The keys of `SUPPORTED_CLI_TOOLS` from `config.py`. -/
def SUPPORTED_CLI_TOOLS : List String := ["kubectl", "istioctl", "helm", "argocd"]

/-- `DANGEROUS_COMMANDS` from `cli_executor.py`. -/
def DANGEROUS_COMMANDS : List (String × List String) :=
  [("kubectl",
    ["kubectl delete", "kubectl drain", "kubectl replace --force",
     "kubectl exec"]),
   ("istioctl", ["istioctl experimental", "istioctl proxy-config"]),
   ("helm", ["helm delete", "helm uninstall", "helm rollback"]),
   ("argocd", ["argocd app delete", "argocd cluster rm", "argocd repo rm"])]

/-- `SAFE_PATTERNS` from `cli_executor.py`. -/
def SAFE_PATTERNS : List (String × List String) :=
  [("kubectl",
    ["kubectl delete pod", "kubectl delete deployment",
     "kubectl delete service", "kubectl delete configmap",
     "kubectl delete secret",
     "kubectl exec --help", "kubectl exec -it"]),
   ("istioctl",
    ["istioctl experimental -h", "istioctl experimental --help",
     "istioctl proxy-config --help"]),
   ("helm",
    ["helm delete --help", "helm uninstall --help", "helm rollback --help"]),
   ("argocd",
    ["argocd app delete --help", "argocd cluster rm --help",
     "argocd repo rm --help"])]

/-- `is_safe_exec_command` from `cli_executor.py` (same body as the
`security.py` copy). -/
def is_safe_exec_command (command : String) : Bool :=
  if ¬ pyStartsWith command "kubectl exec" then true
  else
    let has_interactive := containsSubstr command "-i"
      || containsSubstr command "--stdin"
      || containsSubstr command "-it" || containsSubstr command "-ti"
    let has_dangerous_shell :=
      [" -- sh", " -- bash", " -- /bin/sh", " -- /bin/bash"].any
        (fun pat => containsSubstr (command ++ " ") pat)
    (has_interactive && !has_dangerous_shell) || !has_interactive

/-- `validate_k8s_command` from `cli_executor.py` (the nested
kubectl-exec `if` of the source is flattened into one conjunction). -/
def validate_k8s_command (command : String) : Except String Unit :=
  match shlexSplit command with
  | .error e => .error e
  | .ok cmd_parts =>
    if cmd_parts.isEmpty then .error "Empty command"
    else
      let cli_tool := cmd_parts.headD ""
      match is_valid_k8s_tool cli_tool with
      | .error e => .error e
      | .ok valid =>
        if ¬ valid then
          .error "Command must start with a supported CLI tool: kubectl, istioctl, helm, argocd"
        else if cmd_parts.length < 2 then
          .error ("Command must include a " ++ cli_tool ++ " action")
        else if cli_tool = "kubectl" ∧ "exec" ∈ cmd_parts
            ∧ ¬ is_safe_exec_command command then
          .error "Interactive shells via kubectl exec are restricted. Use explicit commands or proper flags (-it, --command, etc)."
        else
          match DANGEROUS_COMMANDS.lookup cli_tool with
          | none => .ok ()
          | some dangerous_list =>
            match dangerous_list.find? (fun d => pyStartsWith command d) with
            | none => .ok ()
            | some _ =>
              if ((SAFE_PATTERNS.lookup cli_tool).getD []).any
                  (fun p => pyStartsWith command p) then
                .ok ()
              else
                .error "This command is restricted for safety reasons. Please use a more specific form with resource type and name."

/-- The loop over later pipe segments in `validate_pipe_command` from
`cli_executor.py`. -/
def pipeSegLoop : Nat → List String → Except String Unit
  | _, [] => .ok ()
  | i, cmd :: rest =>
    match shlexSplit cmd with
    | .error e => .error e
    | .ok cmd_parts =>
      if cmd_parts.isEmpty then
        .error ("Empty command at position " ++ toString i ++ " in pipe")
      else
        match validate_unix_command cmd with
        | .error e => .error e
        | .ok ok =>
          if ¬ ok then
            .error ("Command " ++ sqs ++ cmd_parts.headD "" ++ sqs
              ++ " at position " ++ toString i
              ++ " in pipe is not allowed. Only kubectl, istioctl, helm, argocd commands and basic Unix utilities are permitted.")
          else pipeSegLoop (i + 1) rest

/-- `validate_pipe_command` from `cli_executor.py`. -/
def validate_pipe_command (pipe_command : String) : Except String Unit :=
  let commands := split_pipe_command pipe_command
  if commands.isEmpty then .error "Empty command"
  else
    match validate_k8s_command (commands.headD "") with
    | .error e => .error e
    | .ok _ => pipeSegLoop 1 commands.tail

/-- `is_auth_error` from `cli_executor.py`: case-insensitive substring
scan of the error output against a fixed signature list. -/
def auth_error_patterns : List String :=
  ["Unable to connect to the server", "Unauthorized", "forbidden",
   "Invalid kubeconfig", "Unable to load authentication",
   "Error loading config", "no configuration has been provided",
   "You must be logged in", "Error: Helm repo"]

/-- `is_auth_error` from `cli_executor.py`. -/
def is_auth_error (error_output : String) : Bool :=
  auth_error_patterns.any
    (fun pat => containsSubstr (pyLower error_output) (pyLower pat))

/-- `get_tool_from_command` from `cli_executor.py` (its `shlex.split` call
can raise, which the `Except` layer records). -/
def get_tool_from_command (command : String) : Except String (Option String) :=
  match shlexSplit command with
  | .error e => .error e
  | .ok cmd_parts =>
    if cmd_parts.isEmpty then .ok none
    else
      let c := cmd_parts.headD ""
      .ok (if c ∈ SUPPORTED_CLI_TOOLS then some c else none)

/-- The Python `list.insert(1, x)` used by `inject_context_namespace`
(on the nonempty token lists it is applied to, this inserts after the
tool name). -/
def pyInsert1 (x : String) : List String → List String
  | [] => [x]
  | h :: t => h :: x :: t

/-- `inject_context_namespace` from `cli_executor.py`.  `K8S_CONTEXT` and
`K8S_NAMESPACE` are the configuration values; a `none` or empty context is
falsy in Python, so no `--context` flag is added then.  The result is the
token list re-joined with single spaces (`" ".join`). -/
def inject_context_namespace (cfg : Config) (command : String) :
    Except String String :=
  if ¬ (pyStartsWith command "kubectl" || pyStartsWith command "istioctl") then
    .ok command
  else
    match shlexSplit command with
    | .error e => .error e
    | .ok cmd_parts =>
      let ctxVal := cfg.context.getD ""
      let cmd_parts :=
        if ctxVal ≠ "" ∧ ¬ containsSubstr command "--context"
            ∧ ¬ cmd_parts.any (· = "--context") then
          pyInsert1 ("--context=" ++ ctxVal) cmd_parts
        else cmd_parts
      let resource_commands := ["get", "describe", "delete", "edit", "label",
        "annotate", "patch", "apply", "logs"]
      let is_resource_command := resource_commands.any (· ∈ cmd_parts)
      let skips_namespace := "-A" ∈ cmd_parts ∨ "--all-namespaces" ∈ cmd_parts
        ∨ "-n" ∈ cmd_parts ∨ "--namespace" ∈ cmd_parts
      let non_namespace_resources := ["nodes", "namespaces", "clusterroles",
        "clusterrolebindings"]
      let targets_non_namespace_resource :=
        non_namespace_resources.any (· ∈ cmd_parts)
      let cmd_parts :=
        if is_resource_command ∧ ¬ skips_namespace
            ∧ ¬ targets_non_namespace_resource then
          pyInsert1 ("--namespace=" ++ cfg.k8sNamespace) cmd_parts
        else cmd_parts
      .ok (String.intercalate " " cmd_parts)

/-- The command string that `execute_command` from `cli_executor.py`
hands to `create_subprocess_shell` on its non-pipe path: the validated
command after context/namespace injection.  `.error` means the call raised
before spawning. -/
def execute_command_shell_string (cfg : Config) (command : String) :
    Except String String :=
  match validate_k8s_command command with
  | .error e => .error e
  | .ok _ => inject_context_namespace cfg command

/-- The body of `execute_command` from `cli_executor.py` after the
subprocess finished (lines 311-357): timeout raises
`CommandExecutionError`, stdout is truncated at `MAX_OUTPUT_SIZE`, a
non-zero exit is classified through `is_auth_error` with a tool-specific
hint appended, and any other exception is wrapped.  `command` is the
(already injected) command the subprocess ran. -/
def processProcOutcome (cfg : Config) (command : String)
    (proc : ProcOutcome) : Except String CommandResult :=
  match proc with
  | .timeout =>
    .error ("Command timed out after " ++ toString cfg.timeoutSecs
      ++ " seconds")
  | .spawnError msg => .error ("Failed to execute command: " ++ msg)
  | .completed rc stdout stderr =>
    let stdout_str :=
      if stdout.length > cfg.maxOutputSize then
        pySlice stdout cfg.maxOutputSize ++ "\n... (output truncated)"
      else stdout
    if rc ≠ 0 then
      if is_auth_error stderr then
        match get_tool_from_command command with
        | .error e => .error ("Failed to execute command: " ++ e)
        | .ok cli_tool =>
          let auth_error_msg := "Authentication error: " ++ stderr
          let auth_error_msg := auth_error_msg ++
            (if cli_tool = some "kubectl" then
              "\nPlease check your kubeconfig."
            else if cli_tool = some "istioctl" then
              "\nPlease check your Istio configuration."
            else if cli_tool = some "helm" then
              "\nPlease check your Helm repository configuration."
            else if cli_tool = some "argocd" then
              "\nPlease check your ArgoCD login status."
            else "")
          .ok { status := "error", output := auth_error_msg }
      else
        .ok { status := "error",
              output := if stderr = "" then
                "Command failed with no error output" else stderr }
    else
      .ok { status := "success", output := stdout_str }

/-- `execute_pipe_command` from `cli_executor.py`: validate the pipe
(a validation failure is re-wrapped with the text `Invalid pipe
command: `), re-split, inject context/namespace into the first segment
only (a tokenizer error there propagates raw - the call sits outside the
try block), re-join with ` | `, and run through
`tools.execute_piped_command` (which returns results rather than
raising, so the `Failed to execute piped command` wrapper is not
reached). -/
def execute_pipe_command (cfg : Config) (pipe_command : String)
    (proc : ProcOutcome) : Except String Tools.CommandResult :=
  match validate_pipe_command pipe_command with
  | .error e => .error ("Invalid pipe command: " ++ e)
  | .ok _ =>
    let commands := Tools.split_pipe_command pipe_command
    match inject_context_namespace cfg (commands.headD "") with
    | .error e => .error e
    | .ok first_command =>
      let joined :=
        if commands.length > 1 then
          first_command ++ " | " ++ String.intercalate " | " commands.tail
        else first_command
      .ok (Tools.execute_piped_command cfg joined proc)

/-- `execute_command` from `cli_executor.py`, as a function of the
subprocess outcome: dispatch pipes to `execute_pipe_command`, otherwise
validate, inject context/namespace, spawn, then post-process. -/
def execute_command (cfg : Config) (command : String) (proc : ProcOutcome) :
    Except String CommandResult :=
  if Tools.is_pipe_command command then execute_pipe_command cfg command proc
  else
    match validate_k8s_command command with
    | .error e => .error e
    | .ok _ =>
      match inject_context_namespace cfg command with
      | .error e => .error e
      | .ok injected => processProcOutcome cfg injected proc

end CliExecutor

/-! ## `k8s_mcp_server/app.py` (the REST gateway)

`execute_command_logic` decodes an optional base64 kubeconfig bundle,
writes it to a `NamedTemporaryFile(delete=False)`, points `KUBECONFIG` at
it for one `create_subprocess_exec` call, and removes the file in a
`finally` block - but only when `kubeconfig_path` was assigned, which
happens *after* the UTF-8 decode inside the `with` block.  The embedding
makes the file-system effect explicit: the result records whether a
temporary file was created, whether it still exists when the call
returns, and whether the subprocess was spawned. -/

namespace App

open Tools

/-- The value of a base64 alphabet character, or `none` for characters
outside the alphabet. -/
def b64Val (c : Char) : Option Nat :=
  if 65 ≤ c.toNat ∧ c.toNat ≤ 90 then some (c.toNat - 65)
  else if 97 ≤ c.toNat ∧ c.toNat ≤ 122 then some (c.toNat - 97 + 26)
  else if 48 ≤ c.toNat ∧ c.toNat ≤ 57 then some (c.toNat - 48 + 52)
  else if c = '+' then some 62
  else if c = '/' then some 63
  else none

/-- Decode a list of base64 digit values into bytes (full quads give three
bytes, a final pair or triple gives one or two). -/
def b64Bytes : List Nat → List Nat
  | a :: b :: c :: d :: rest =>
    (a * 4 + b / 16) :: ((b % 16) * 16 + c / 4) :: ((c % 4) * 64 + d)
      :: b64Bytes rest
  | [a, b] => [a * 4 + b / 16]
  | [a, b, c] => [a * 4 + b / 16, (b % 16) * 16 + c / 4]
  | _ => []

/-- Embedding of Python `base64.b64decode(s)` (`validate=False`):
characters neither in the alphabet nor `=` are discarded, data stops at
the first padding character, the number of data characters must not be
one more than a multiple of four, and a final partial group must be
completed by padding; `none` is the raised `binascii.Error`. -/
def pyB64Decode (s : String) : Option (List Nat) :=
  let kept := s.data.filter (fun c => (b64Val c).isSome || c = '=')
  let dataChars := kept.takeWhile (fun c => c ≠ '=')
  let data := dataChars.filterMap b64Val
  let pads := (kept.drop dataChars.length).countP (fun c => c = '=')
  if data.length % 4 = 0 then some (b64Bytes data)
  else if data.length % 4 = 1 then none
  else if (data.length + pads) % 4 = 0 then some (b64Bytes data)
  else none

/-- The byte-level scan for strict UTF-8 validity.  The state is `none`
when the next byte must be a lead byte, and `some (k, lo, hi)` when the
next byte must lie in `[lo, hi]` and is followed by `k` further generic
continuation bytes (the `lo`/`hi` bounds on the first continuation byte
encode the overlong, surrogate and out-of-range exclusions). -/
def utf8Aux : List Nat → Option (Nat × Nat × Nat) → Bool
  | [], none => true
  | [], some _ => false
  | b :: rest, none =>
    if b < 128 then utf8Aux rest none
    else if 194 ≤ b ∧ b ≤ 223 then utf8Aux rest (some (0, 128, 191))
    else if b = 224 then utf8Aux rest (some (1, 160, 191))
    else if b = 237 then utf8Aux rest (some (1, 128, 159))
    else if 225 ≤ b ∧ b ≤ 239 then utf8Aux rest (some (1, 128, 191))
    else if b = 240 then utf8Aux rest (some (2, 144, 191))
    else if 241 ≤ b ∧ b ≤ 243 then utf8Aux rest (some (2, 128, 191))
    else if b = 244 then utf8Aux rest (some (2, 128, 143))
    else false
  | b :: rest, some (k, lo, hi) =>
    if lo ≤ b ∧ b ≤ hi then
      utf8Aux rest (if k = 0 then none else some (k - 1, 128, 191))
    else false

/-- Strict UTF-8 validity of a byte sequence, as checked by Python
`bytes.decode(repr)` with the default strict error handler
(overlong encodings, surrogates and out-of-range lead bytes all raise
`UnicodeDecodeError`). -/
def utf8Valid (bytes : List Nat) : Bool := utf8Aux bytes none

/-- The response model of the REST gateway (`CommandResponse` in
`app.py`). -/
structure CommandResponse where
  success : Bool
  output : String
  error : Option String
  exit_code : Int
deriving DecidableEq, Repr

/-- What one call of `execute_command_logic` did: the HTTP response it
returned, whether a temporary kubeconfig file was created during the
call, whether that file still exists on disk when the call returns, and
whether the subprocess was spawned. -/
structure LogicOutcome where
  response : CommandResponse
  tempFileCreated : Bool
  tempFileExistsAfterReturn : Bool
  spawned : Bool
deriving DecidableEq, Repr

/-- The outcome of the one `create_subprocess_exec` call in
`execute_command_logic`. -/
inductive ExecOutcome where
  | completed (returncode : Int) (stdout stderr : String)
  | fileNotFound
  | otherError (msg : String)
deriving DecidableEq, Repr

/-- The subprocess phase of `execute_command_logic` (building `cmd_parts`
from the tool name, the whitespace-split command and the optional
`-n <namespace>` insertion, then returning the response for the
subprocess outcome).  `tool` is prepended as `[tool] + command.split()`;
the namespace pair is inserted at positions 1 and 2 for `kubectl` and
`helm`. -/
def runPhase (tool command : String) (ns : Option String)
    (proc : ExecOutcome) : CommandResponse :=
  let cmd_parts := [tool] ++ pySplitWs command
  let _cmd_parts :=
    match ns with
    | some n =>
      if tool = "kubectl" ∨ tool = "helm" then
        match cmd_parts with
        | h :: t => h :: "-n" :: n :: t
        | [] => ["-n", n]
      else cmd_parts
    | none => cmd_parts
  match proc with
  | .completed rc stdout stderr =>
    { success := rc = 0, output := stdout,
      error := if stderr = "" then none else some stderr, exit_code := rc }
  | .fileNotFound =>
    { success := false, output := "",
      error := some ("Command " ++ sqs ++ tool ++ sqs
        ++ " not found. Please ensure " ++ tool
        ++ " is installed and in PATH."),
      exit_code := -1 }
  | .otherError msg =>
    { success := false, output := "", error := some msg, exit_code := -1 }

/-- `execute_command_logic` from `app.py`, with the temporary-file
effects made explicit.  When a kubeconfig bundle is supplied:
a base64 decode failure is caught before any file is created; a
successful base64 decode creates the `NamedTemporaryFile(delete=False)`,
and only after the UTF-8 decode and write succeed is `kubeconfig_path`
assigned - so a `UnicodeDecodeError` is caught and answered with the same
error response, but the `finally` block (which tests `kubeconfig_path`)
does not remove the file that was already created.  On every path that
assigns `kubeconfig_path`, the `finally` block removes the file. -/
def execute_command_logic (tool command : String) (ns : Option String)
    (kubeconfig_b64 : Option String) (proc : ExecOutcome) : LogicOutcome :=
  match kubeconfig_b64 with
  | none =>
    { response := runPhase tool command ns proc,
      tempFileCreated := false, tempFileExistsAfterReturn := false,
      spawned := true }
  | some b64 =>
    if b64 = "" then
      -- the empty string is falsy in Python, so `if kubeconfig_b64:` skips
      -- the whole decode block
      { response := runPhase tool command ns proc,
        tempFileCreated := false, tempFileExistsAfterReturn := false,
        spawned := true }
    else
      let decodeFailResponse : CommandResponse :=
        { success := false, output := "",
          error := some "Invalid base64 kubeconfig", exit_code := -1 }
      match pyB64Decode b64 with
      | none =>
        { response := decodeFailResponse,
          tempFileCreated := false, tempFileExistsAfterReturn := false,
          spawned := false }
      | some bytes =>
        if utf8Valid bytes then
          { response := runPhase tool command ns proc,
            tempFileCreated := true, tempFileExistsAfterReturn := false,
            spawned := true }
        else
          { response := decodeFailResponse,
            tempFileCreated := true, tempFileExistsAfterReturn := true,
            spawned := false }

end App

/-! ## Specification-side definitions

The spec describes pipe detection as a left-to-right scan tracking
single/double-quote state, where a quote immediately preceded by a
backslash does not toggle the state.  `qstep` is that state transition,
and `UnquotedOcc t cs` says that `t` occurs in `cs` at a position whose
preceding prefix leaves the scan outside both kinds of quotes. -/

/-- One step of the spec-level quote-tracking scan.  The state is the
previous character together with the single-quote and double-quote
flags. -/
def qstep : Option Char × Bool × Bool → Char → Option Char × Bool × Bool
  | (prev, inS, inD), c =>
    if c = squote && prev ≠ some bslash then (some c, !inS, inD)
    else if c = dquote && prev ≠ some bslash then (some c, inS, !inD)
    else (some c, inS, inD)

/-- The initial state of the quote-tracking scan. -/
def qinit : Option Char × Bool × Bool := (none, false, false)

/-- `UnquotedOcc t cs`: character `t` occurs in `cs` outside single and
double quotes, under the scan described by the spec. -/
def UnquotedOcc (t : Char) (cs : List Char) : Prop :=
  ∃ pre post, cs = pre ++ t :: post ∧
    (List.foldl qstep qinit pre).2.1 = false ∧
    (List.foldl qstep qinit pre).2.2 = false

/-! ## Theorems -/

/-- **C1** (code_bug): the spec says the kubectl-exec admission path
accepts `kubectl exec pod -- ls`, rejects `kubectl exec pod -- bash`,
accepts `kubectl exec -it pod -- bash` and accepts
`kubectl exec pod -- bash -c (ls -la)`.  The code rejects all four: every
`kubectl exec ...` string matches the dangerous prefix `kubectl exec`,
the only safe overrides are the literal prefixes `kubectl exec --help`
and `kubectl exec -it`, and the interactive form is rejected even earlier
by `is_safe_exec_command` because ` -- bash` occurs in the string.  This
theorem evaluates `security.validate_k8s_command` on the four inputs,
showing that only the second verdict agrees with the claim (the
repository's own tests expect the claimed verdicts and contradict the
code). -/
theorem c1_exec_admission_code_rejects_all_four :
    Security.validate_k8s_command "kubectl exec pod -- ls"
      = .error "This command (kubectl exec) is restricted for safety reasons. Please use a more specific form with resource type and name."
    ∧ Security.validate_k8s_command "kubectl exec pod -- bash"
      = .error "This command (kubectl exec) is restricted for safety reasons. Please use a more specific form with resource type and name."
    ∧ Security.validate_k8s_command "kubectl exec -it pod -- bash"
      = .error "Interactive shells via kubectl exec are restricted. Use explicit commands or proper flags (-it, --command, etc)."
    ∧ Security.validate_k8s_command
        ("kubectl exec pod -- bash -c " ++ sqs ++ "ls -la" ++ sqs)
      = .error "This command (kubectl exec) is restricted for safety reasons. Please use a more specific form with resource type and name." :=
  ⟨rfl, rfl, rfl, rfl⟩

/-- If a token is one of the four supported CLI tools, `is_valid_k8s_tool`
applied to it (as `validate_k8s_command` does) answers `.ok true`. -/
theorem is_valid_k8s_tool_of_mem {tool : String}
    (h : tool ∈ Tools.ALLOWED_K8S_TOOLS) :
    Tools.is_valid_k8s_tool tool = .ok true := by
  simp only [Tools.ALLOWED_K8S_TOOLS, List.mem_cons, List.not_mem_nil,
    or_false] at h
  rcases h with rfl | rfl | rfl | rfl <;> rfl

/-- The missing-action message never contains the dangerous-command
rejection phrase, for any of the four tools. -/
theorem include_action_msg_benign {tool : String}
    (h : tool ∈ Tools.ALLOWED_K8S_TOOLS) :
    containsSubstr ("Command must include a " ++ tool ++ " action")
      "restricted for safety reasons" = false := by
  simp only [Tools.ALLOWED_K8S_TOOLS, List.mem_cons, List.not_mem_nil,
    or_false] at h
  rcases h with rfl | rfl | rfl | rfl <;> decide

/-- **C2** (counterexample): `kubectl exec -it pod -- bash` starts with the
dangerous prefix `kubectl exec` and with the safe prefix
`kubectl exec -it`, so by the claim it would be accepted; the code rejects
it, because the kubectl-exec interactive-shell check runs before the
dangerous/safe-prefix check ever does. -/
theorem c2_counterexample_safe_match_still_rejected :
    pyStartsWith "kubectl exec -it pod -- bash" "kubectl exec" = true
    ∧ "kubectl exec" ∈ (Security.DANGEROUS_COMMANDS.lookup "kubectl").getD []
    ∧ pyStartsWith "kubectl exec -it pod -- bash" "kubectl exec -it" = true
    ∧ "kubectl exec -it" ∈ (Security.SAFE_PATTERNS.lookup "kubectl").getD []
    ∧ shlexSplit "kubectl exec -it pod -- bash"
        = .ok ["kubectl", "exec", "-it", "pod", "--", "bash"]
    ∧ Security.validate_k8s_command "kubectl exec -it pod -- bash"
        = .error "Interactive shells via kubectl exec are restricted. Use explicit commands or proper flags (-it, --command, etc)." :=
  ⟨rfl, by decide, rfl, by decide, rfl, rfl⟩

/-- If both branches of a conditional are rejections, the conditional is a
rejection. -/
theorem ite_error_exists {c : Prop} [Decidable c] {x y : Except String Unit}
    (hx : ∃ m, x = .error m) (hy : ∃ m, y = .error m) :
    ∃ m, (if c then x else y) = .error m := by
  split
  · exact hx
  · exact hy

/-- **C2** (amended): for every command whose first token is a supported
CLI tool and which starts with one of that tool's dangerous prefixes:
if it starts with none of the tool's safe prefixes it is rejected; if it
does start with a safe prefix, the dangerous-prefix check never rejects
it (no rejection carries the dangerous-command message), though earlier
checks - notably the kubectl-exec interactive-shell check - may still
reject it.  Concretely, `kubectl delete` alone is rejected,
`kubectl delete pod my-pod` is accepted, `helm delete` is rejected and
`helm delete --help` is accepted. -/
theorem c2_dangerous_prefix_rejected_unless_safe :
    (∀ (s tool : String) (parts : List String),
      shlexSplit s = .ok parts → parts.headD "" = tool →
      tool ∈ Tools.ALLOWED_K8S_TOOLS →
      (∃ d ∈ (Security.DANGEROUS_COMMANDS.lookup tool).getD [],
        pyStartsWith s d = true) →
      ((∀ p ∈ (Security.SAFE_PATTERNS.lookup tool).getD [],
          pyStartsWith s p = false) →
        ∃ msg, Security.validate_k8s_command s = .error msg)
      ∧ ((∃ p ∈ (Security.SAFE_PATTERNS.lookup tool).getD [],
          pyStartsWith s p = true) →
        ∀ msg, Security.validate_k8s_command s = .error msg →
          containsSubstr msg "restricted for safety reasons" = false))
    ∧ Security.validate_k8s_command "kubectl delete"
        = .error "This command (kubectl delete) is restricted for safety reasons. Please use a more specific form with resource type and name."
    ∧ Security.validate_k8s_command "kubectl delete pod my-pod" = .ok ()
    ∧ Security.validate_k8s_command "helm delete"
        = .error "This command (helm delete) is restricted for safety reasons. Please use a more specific form with resource type and name."
    ∧ Security.validate_k8s_command "helm delete --help" = .ok () := by
  refine ⟨?_, rfl, rfl, rfl, rfl⟩
  intro s tool parts hsplit hhead htool hdang
  cases parts with
  | nil =>
    exfalso
    subst hhead
    revert htool
    decide
  | cons a rest =>
    simp only [List.headD_cons] at hhead
    subst hhead
    have hivt := is_valid_k8s_tool_of_mem htool
    obtain ⟨d, hdmem, hdpre⟩ := hdang
    have hfind : ((((Security.DANGEROUS_COMMANDS.lookup a).getD []).find?
        (fun d => pyStartsWith s d)).isSome) :=
      List.find?_isSome.mpr ⟨d, hdmem, hdpre⟩
    obtain ⟨d', hd'⟩ := Option.isSome_iff_exists.mp hfind
    have hlook : ∃ dl, Security.DANGEROUS_COMMANDS.lookup a = some dl := by
      simp only [Tools.ALLOWED_K8S_TOOLS, List.mem_cons, List.not_mem_nil,
        or_false] at htool
      rcases htool with rfl | rfl | rfl | rfl <;> exact ⟨_, rfl⟩
    obtain ⟨dl, hdl⟩ := hlook
    rw [hdl] at hd'
    simp only [Option.getD_some] at hd'
    constructor
    · intro hnosafe
      have hany : (((Security.SAFE_PATTERNS.lookup a).getD []).any
          (fun p => pyStartsWith s p)) = false :=
        List.any_eq_false.mpr (fun p hp => by simp [hnosafe p hp])
      simp only [Security.validate_k8s_command, hsplit, List.isEmpty_cons,
        List.headD_cons, hivt, hdl, hd', hany, Bool.false_eq_true, if_false,
        not_true]
      exact ite_error_exists ⟨_, rfl⟩ (ite_error_exists ⟨_, rfl⟩ ⟨_, rfl⟩)
    · intro hsafe msg hmsg
      have hany : (((Security.SAFE_PATTERNS.lookup a).getD []).any
          (fun p => pyStartsWith s p)) = true := by
        obtain ⟨p, hpmem, hp⟩ := hsafe
        exact List.any_eq_true.mpr ⟨p, hpmem, hp⟩
      simp only [Security.validate_k8s_command, hsplit, List.isEmpty_cons,
        List.headD_cons, hivt, hdl, hd', hany, Bool.false_eq_true, if_false,
        not_true, eq_self_iff_true, if_true] at hmsg
      split at hmsg
      · injection hmsg with h
        subst h
        exact include_action_msg_benign htool
      · split at hmsg
        · injection hmsg with h
          subst h
          decide
        · exact Except.noConfusion hmsg

/-- Witness for the amended C2 theorem: `helm uninstall x` starts with the
dangerous prefix `helm uninstall` and with no safe pattern, and is
rejected; `kubectl exec -it pod -- bash` starts with a dangerous prefix
and with a safe pattern, and its (exec-check) rejection message is not the
dangerous-command message. -/
theorem c2_dangerous_prefix_rejected_unless_safe_witness :
    (∃ msg, Security.validate_k8s_command "helm uninstall x" = .error msg)
    ∧ containsSubstr
        "Interactive shells via kubectl exec are restricted. Use explicit commands or proper flags (-it, --command, etc)."
        "restricted for safety reasons" = false :=
  ⟨(c2_dangerous_prefix_rejected_unless_safe.1 "helm uninstall x" "helm"
      ["helm", "uninstall", "x"] rfl rfl (by decide)
      ⟨"helm uninstall", by decide, rfl⟩).1 (by decide),
   (c2_dangerous_prefix_rejected_unless_safe.1 "kubectl exec -it pod -- bash"
      "kubectl" ["kubectl", "exec", "-it", "pod", "--", "bash"] rfl rfl
      (by decide) ⟨"kubectl exec", by decide, rfl⟩).2
      ⟨"kubectl exec -it", by decide, rfl⟩
      "Interactive shells via kubectl exec are restricted. Use explicit commands or proper flags (-it, --command, etc)."
      rfl⟩

/-- **C3** (confirmed): `kubectl get pods; bash` is accepted by the
central validation (`security.validate_command`) and by the executor path
(`cli_executor.validate_k8s_command`), is not detected as a pipe, and the
string handed to `create_subprocess_shell` by `execute_command` (after
namespace injection) still contains an unquoted `;`; the text after that
`;` is ` bash`, whose first token `bash` is neither a supported CLI tool
nor in the Unix pipeline allow-list - so the shell would run a program
outside both lists. -/
theorem c3_unquoted_semicolon_reaches_shell :
    Security.validate_command "kubectl get pods; bash" = .ok ()
    ∧ CliExecutor.validate_k8s_command "kubectl get pods; bash" = .ok ()
    ∧ Tools.is_pipe_command "kubectl get pods; bash" = false
    ∧ CliExecutor.execute_command_shell_string Tools.defaultConfig
        "kubectl get pods; bash"
      = .ok "kubectl --namespace=default get pods; bash"
    ∧ UnquotedOcc (Char.ofNat 59)
        ("kubectl --namespace=default get pods; bash").data
    ∧ shlexSplit " bash" = .ok ["bash"]
    ∧ "bash" ∉ Tools.ALLOWED_K8S_TOOLS
    ∧ "bash" ∉ Tools.ALLOWED_UNIX_COMMANDS :=
  ⟨rfl, rfl, rfl, rfl,
   ⟨("kubectl --namespace=default get pods").data, (" bash").data,
    by decide, by decide, by decide⟩,
   rfl, by decide, by decide⟩

/-- **C4** (code_bug): the claim says the REST gateway's temporary
kubeconfig file never survives the call, for every outcome including a
Unicode decode failure.  For the base64 bundle `/w==` (which decodes to
the single byte `0xFF`, not valid UTF-8) the code creates the temporary
file, catches the `UnicodeDecodeError` and returns the error response
without spawning - but `kubeconfig_path` was never assigned, so the
`finally` block does not remove the file: it still exists when the call
returns.  For comparison, the same theorem shows the base64-error path
creates no file, and the valid-bundle path removes the file for every
subprocess outcome. -/
theorem c4_unicode_decode_failure_leaks_temp_file :
    ∀ proc : App.ExecOutcome,
      (App.execute_command_logic "kubectl" "get pods" none (some "/w==")
          proc).tempFileCreated = true
      ∧ (App.execute_command_logic "kubectl" "get pods" none (some "/w==")
          proc).tempFileExistsAfterReturn = true
      ∧ (App.execute_command_logic "kubectl" "get pods" none (some "/w==")
          proc).spawned = false
      ∧ (App.execute_command_logic "kubectl" "get pods" none (some "/w==")
          proc).response.success = false
      ∧ (App.execute_command_logic "kubectl" "get pods" none (some "abc")
          proc).tempFileCreated = false
      ∧ (App.execute_command_logic "kubectl" "get pods" none (some "abc")
          proc).spawned = false
      ∧ (App.execute_command_logic "kubectl" "get pods" none
          (some "aGVsbG8=") proc).tempFileCreated = true
      ∧ (App.execute_command_logic "kubectl" "get pods" none
          (some "aGVsbG8=") proc).tempFileExistsAfterReturn = false :=
  fun _ => ⟨rfl, rfl, rfl, rfl, rfl, rfl, rfl, rfl⟩

/-- **C5** (counterexample): the claim says `is_valid_k8s_tool` and
`validate_unix_command` return a boolean for every input and never raise.
Both call `shlex.split`, which raises `ValueError` on an unmatched quote,
and neither catches it: on the inputs `kubectl (quote)x` and
`grep (quote)a` both propagate the tokenizer error instead of returning a
boolean. -/
theorem c5_counterexample_unmatched_quote_raises :
    Tools.is_valid_k8s_tool ("kubectl " ++ sqs ++ "x")
      = .error "No closing quotation"
    ∧ Tools.validate_unix_command ("grep " ++ sqs ++ "a")
      = .error "No closing quotation" :=
  ⟨rfl, rfl⟩

/-- **C5** (amended): for every input string that the tokenizer accepts,
`is_valid_k8s_tool` and `validate_unix_command` return a boolean - `false`
for empty or all-whitespace input, membership of the first token in the
respective allow-list otherwise - and raise nothing; on input the
tokenizer rejects (unmatched quote or trailing escape) both propagate the
tokenizer's `ValueError`. -/
theorem c5_boolean_on_tokenizable_input :
    ∀ (s : String) (parts : List String), shlexSplit s = .ok parts →
      Tools.is_valid_k8s_tool s
        = .ok (!parts.isEmpty
            && decide (parts.headD "" ∈ Tools.ALLOWED_K8S_TOOLS))
      ∧ Tools.validate_unix_command s
        = .ok (!parts.isEmpty
            && decide (parts.headD "" ∈ Tools.ALLOWED_UNIX_COMMANDS)) := by
  intro s parts h
  constructor <;>
    simp only [Tools.is_valid_k8s_tool, Tools.validate_unix_command, h] <;>
    cases parts <;> simp

/-- Witness for the amended C5 theorem at the empty input. -/
theorem c5_boolean_on_tokenizable_input_witness :
    Tools.is_valid_k8s_tool "" = .ok false
    ∧ Tools.validate_unix_command "" = .ok false := by
  have h := c5_boolean_on_tokenizable_input "" [] rfl
  simpa using h

/-- Splitting a cons cell off a pipe-position decomposition. -/
theorem cons_pipe_decomp_iff (c : Char) (rest : List Char)
    (A : List Char → Prop) :
    (∃ pre post, c :: rest = pre ++ '|' :: post ∧ A pre) ↔
    ((c = '|' ∧ A []) ∨ ∃ pre post, rest = pre ++ '|' :: post ∧ A (c :: pre)) := by
  constructor
  · rintro ⟨pre, post, heq, hA⟩
    cases pre with
    | nil =>
      simp only [List.nil_append, List.cons.injEq] at heq
      exact Or.inl ⟨heq.1, hA⟩
    | cons p pre' =>
      simp only [List.cons_append, List.cons.injEq] at heq
      obtain ⟨rfl, hrest⟩ := heq
      exact Or.inr ⟨pre', post, hrest, hA⟩
  · rintro (⟨rfl, hA⟩ | ⟨pre, post, heq, hA⟩)
    · exact ⟨[], rest, rfl, hA⟩
    · exact ⟨c :: pre, post, by rw [heq, List.cons_append], hA⟩

/-- The `is_pipe_command` scan finds a `|` exactly when some position
holds a `|` whose preceding prefix leaves the quote-tracking state
outside both kinds of quotes (stated for an arbitrary starting state so
that the induction goes through). -/
theorem isPipeAux_eq_true_iff (cs : List Char) :
    ∀ (prev : Option Char) (inS inD : Bool),
      Tools.isPipeAux prev inS inD cs = true ↔
      ∃ pre post, cs = pre ++ '|' :: post ∧
        (List.foldl qstep (prev, inS, inD) pre).2.1 = false ∧
        (List.foldl qstep (prev, inS, inD) pre).2.2 = false := by
  induction cs with
  | nil =>
    intro prev inS inD
    simp [Tools.isPipeAux]
  | cons c rest ih =>
    intro prev inS inD
    rw [cons_pipe_decomp_iff]
    simp only [List.foldl_nil, List.foldl_cons]
    cases hb1 : (decide (c = squote) && decide (prev ≠ some bslash)) with
    | true =>
      have hq : qstep (prev, inS, inD) c = (some c, !inS, inD) := by
        simp only [qstep, hb1, if_true]
      have hpipe : c ≠ '|' := by
        simp only [Bool.and_eq_true, decide_eq_true_eq] at hb1
        rw [hb1.1]; decide
      simp only [Tools.isPipeAux, hb1, if_true, ih, hq, hpipe, false_and,
        false_or]
    | false =>
      cases hb2 : (decide (c = dquote) && decide (prev ≠ some bslash)) with
      | true =>
        have hq : qstep (prev, inS, inD) c = (some c, inS, !inD) := by
          simp only [qstep, hb1, hb2, Bool.false_eq_true, if_false, if_true]
        have hpipe : c ≠ '|' := by
          simp only [Bool.and_eq_true, decide_eq_true_eq] at hb2
          rw [hb2.1]; decide
        simp only [Tools.isPipeAux, hb1, hb2, Bool.false_eq_true, if_false,
          if_true, ih, hq, hpipe, false_and, false_or]
      | false =>
        have hq : qstep (prev, inS, inD) c = (some c, inS, inD) := by
          simp only [qstep, hb1, hb2, Bool.false_eq_true, if_false]
        cases hb3 : (decide (c = '|') && !inS && !inD) with
        | true =>
          simp only [Bool.and_eq_true, decide_eq_true_eq, Bool.not_eq_true'] at hb3
          obtain ⟨⟨hc, hs⟩, hd⟩ := hb3
          subst hc hs hd
          have hns : ('|' : Char) ≠ squote := by decide
          have hnd : ('|' : Char) ≠ dquote := by decide
          simp [Tools.isPipeAux, hb1, hb2, hns, hnd]
        | false =>
          simp only [Tools.isPipeAux, hb1, hb2, hb3, Bool.false_eq_true,
            if_false, ih, hq]
          have hleft : ¬ (c = '|' ∧ inS = false ∧ inD = false) := by
            intro ⟨hc, hs, hd⟩
            rw [hc, hs, hd] at hb3
            simp at hb3
          constructor
          · intro h
            exact Or.inr h
          · rintro (h | h)
            · exact absurd h hleft
            · exact h

/-- **C6** (confirmed): `is_pipe_command` returns true exactly when the
input contains a `|` outside single and double quotes under the
left-to-right scan in which a quote immediately preceded by a backslash
does not toggle the quoting state; on
`kubectl get pods | grep (quote)a|b(quote)` it returns true, and
`split_pipe_command` yields exactly the two trimmed segments
`kubectl get pods` and `grep (quote)a|b(quote)`, the quoted `|` not
being treated as a separator. -/
theorem c6_pipe_detection_iff_unquoted_pipe :
    (∀ s : String, Tools.is_pipe_command s = true ↔ UnquotedOcc (Char.ofNat 124) s.data)
    ∧ Tools.is_pipe_command ("kubectl get pods | grep " ++ sqs ++ "a|b" ++ sqs)
        = true
    ∧ Tools.split_pipe_command ("kubectl get pods | grep " ++ sqs ++ "a|b" ++ sqs)
        = ["kubectl get pods", "grep " ++ sqs ++ "a|b" ++ sqs] := by
  refine ⟨?_, rfl, rfl⟩
  intro s
  unfold Tools.is_pipe_command UnquotedOcc qinit
  exact isPipeAux_eq_true_iff s.data none false false

/-- The scan behind the Python substring test finds the needle exactly
when it is an infix. -/
theorem containsAux_eq_true_iff (needle : List Char) :
    ∀ hay : List Char, containsAux needle hay = true ↔ needle <:+: hay := by
  intro hay
  induction hay with
  | nil =>
    simp [containsAux, List.isEmpty_iff, List.infix_nil]
  | cons c t ih =>
    simp only [containsAux, Bool.or_eq_true, ih, List.infix_cons_iff,
      List.IsPrefix, List.isPrefixOf_iff_prefix]

/-- `containsSubstr s sub` is true exactly when `sub` is an infix of
`s`. -/
theorem containsSubstr_eq_true_iff (s sub : String) :
    containsSubstr s sub = true ↔ sub.data <:+: s.data :=
  containsAux_eq_true_iff sub.data s.data

/-- A pipe segment that the security pipe loop lets through: it
tokenizes, is nonempty, and its first token is allow-listed. -/
def goodSeg (seg : String) : Prop :=
  ∃ parts, shlexSplit seg = .ok parts ∧ parts ≠ [] ∧
    parts.headD "" ∈ Tools.ALLOWED_UNIX_COMMANDS

/-- On input the tokenizer accepts, `validate_unix_command` answers with
the allow-list membership of the first token. -/
theorem validate_unix_command_of_split {s : String} {parts : List String}
    (h : shlexSplit s = .ok parts) :
    Tools.validate_unix_command s
      = .ok (!parts.isEmpty
          && decide (parts.headD "" ∈ Tools.ALLOWED_UNIX_COMMANDS)) := by
  simp only [Tools.validate_unix_command, h]
  cases parts <;> simp

/-- A segment whose tokens start with an allow-listed command is good. -/
theorem goodSeg_of_parts {cmd : String} {a : String} {t : List String}
    (h : shlexSplit cmd = .ok (a :: t))
    (hm : a ∈ Tools.ALLOWED_UNIX_COMMANDS) : goodSeg cmd :=
  ⟨a :: t, h, by simp, by simpa using hm⟩

/-- A segment with no tokens is not good. -/
theorem not_goodSeg_empty {cmd : String}
    (h : shlexSplit cmd = .ok []) : ¬ goodSeg cmd := by
  rintro ⟨parts, hp, hne, -⟩
  rw [h] at hp
  injection hp with hp
  exact absurd hp.symm hne

/-- A segment whose first token is not allow-listed is not good. -/
theorem not_goodSeg_head {cmd : String} {a : String} {t : List String}
    (h : shlexSplit cmd = .ok (a :: t))
    (hm : a ∉ Tools.ALLOWED_UNIX_COMMANDS) : ¬ goodSeg cmd := by
  rintro ⟨parts, hp, -, hmem⟩
  rw [h] at hp
  injection hp with hp
  subst hp
  exact hm (by simpa using hmem)

/-- A segment the tokenizer rejects is not good. -/
theorem not_goodSeg_error {cmd : String} {e : String}
    (h : shlexSplit cmd = .error e) : ¬ goodSeg cmd := by
  rintro ⟨parts, hp, -, -⟩
  rw [h] at hp
  exact Except.noConfusion hp

/-- The pipe-segment loop accepts exactly when every segment is good. -/
theorem pipeSegLoop_ok_iff (segs : List String) :
    ∀ i : Nat, Security.pipeSegLoop i segs = .ok () ↔
      ∀ seg ∈ segs, goodSeg seg := by
  induction segs with
  | nil => intro i; simp [Security.pipeSegLoop]
  | cons cmd rest ih =>
    intro i
    simp only [Security.pipeSegLoop]
    cases h : shlexSplit cmd with
    | error e =>
      constructor
      · intro hc
        exact Except.noConfusion hc
      · intro hall
        exact absurd (hall cmd (List.mem_cons_self cmd rest))
          (not_goodSeg_error h)
    | ok parts =>
      cases parts with
      | nil =>
        simp only [List.isEmpty_nil, if_true]
        constructor
        · intro hc
          exact Except.noConfusion hc
        · intro hall
          exact absurd (hall cmd (List.mem_cons_self cmd rest))
            (not_goodSeg_empty h)
      | cons a t =>
        simp only [List.isEmpty_cons, Bool.false_eq_true, if_false,
          validate_unix_command_of_split h, Bool.not_false, Bool.true_and]
        by_cases hm : a ∈ Tools.ALLOWED_UNIX_COMMANDS
        · have hgood : goodSeg cmd := goodSeg_of_parts h hm
          simp only [List.headD_cons, hm, decide_True, not_true,
            Bool.false_eq_true, if_false, ih, List.forall_mem_cons, hgood,
            true_and]
        · have hbad : ¬ goodSeg cmd := not_goodSeg_head h hm
          simp only [List.headD_cons, hm, decide_False, not_false_iff,
            if_true]
          constructor
          · intro hc
            exact Except.noConfusion hc
          · intro hall
            exact absurd (hall cmd (List.mem_cons_self cmd rest)) hbad

/-- The empty-segment rejection message contains its position text. -/
theorem posSub_infix_empty_msg (i : Nat) :
    ("position " ++ toString i).data <:+:
      ("Empty command at position " ++ toString i ++ " in pipe").data := by
  refine ⟨("Empty command at ").data, (" in pipe").data, ?_⟩
  have hs : ("Empty command at position " : String)
      = "Empty command at " ++ "position " := by decide
  simp only [hs, String.data_append, List.append_assoc]

/-- The disallowed-segment rejection message contains its position
text. -/
theorem posSub_infix_not_allowed_msg (a : String) (i : Nat) :
    ("position " ++ toString i).data <:+:
      ("Command " ++ sqs ++ a ++ sqs ++ " at position " ++ toString i
        ++ " in pipe is not allowed. Only kubectl, istioctl, helm, argocd commands and basic Unix utilities are permitted.").data := by
  refine ⟨("Command " ++ sqs ++ a ++ sqs ++ " at ").data,
    (" in pipe is not allowed. Only kubectl, istioctl, helm, argocd commands and basic Unix utilities are permitted.").data, ?_⟩
  have hs : (" at position " : String) = " at " ++ "position " := by decide
  simp only [hs, String.data_append, List.append_assoc]

/-- When every segment before index `j` is good and segment `j` is bad
but tokenizes, the loop started at position `i` rejects with a message
naming position `i + j`. -/
theorem pipeSegLoop_pos (segs : List String) :
    ∀ i j : Nat, j < segs.length →
      (∀ k, k < j → goodSeg (segs.getD k "")) →
      ¬ goodSeg (segs.getD j "") →
      (∃ parts, shlexSplit (segs.getD j "") = .ok parts) →
      ∃ msg, Security.pipeSegLoop i segs = .error msg ∧
        containsSubstr msg ("position " ++ toString (i + j)) = true := by
  induction segs with
  | nil =>
    intro i j hj
    exact absurd hj (by simp)
  | cons cmd rest ih =>
    intro i j hj hgood hbad htok
    cases j with
    | zero =>
      simp only [List.getD_cons_zero] at hbad htok
      obtain ⟨parts, hp⟩ := htok
      simp only [Security.pipeSegLoop, hp]
      cases parts with
      | nil =>
        simp only [List.isEmpty_nil, if_true]
        refine ⟨_, rfl, ?_⟩
        rw [containsSubstr_eq_true_iff, Nat.add_zero]
        exact posSub_infix_empty_msg i
      | cons a t =>
        have hm : a ∉ Tools.ALLOWED_UNIX_COMMANDS := by
          intro hmem
          exact hbad (goodSeg_of_parts hp hmem)
        simp only [List.isEmpty_cons, Bool.false_eq_true, if_false,
          validate_unix_command_of_split hp, Bool.not_false, Bool.true_and,
          List.headD_cons, hm, decide_False, not_false_iff, if_true]
        refine ⟨_, rfl, ?_⟩
        rw [containsSubstr_eq_true_iff, Nat.add_zero]
        exact posSub_infix_not_allowed_msg a i
    | succ j' =>
      have hgood0 : goodSeg cmd := by
        have := hgood 0 (Nat.succ_pos j')
        simpa using this
      obtain ⟨parts, hp, hne, hmem⟩ := hgood0
      cases parts with
      | nil => exact absurd rfl hne
      | cons a t =>
        simp only [List.headD_cons] at hmem
        simp only [Security.pipeSegLoop, hp, List.isEmpty_cons,
          Bool.false_eq_true, if_false, validate_unix_command_of_split hp,
          Bool.not_false, Bool.true_and, List.headD_cons, hmem, decide_True,
          not_true, if_false]
        have harith : i + 1 + j' = i + (j' + 1) := by omega
        rw [← harith]
        refine ih (i + 1) j' (by simpa using hj) ?_ ?_ ?_
        · intro k hk
          have := hgood (k + 1) (by omega)
          simpa using this
        · simpa using hbad
        · simpa using htok

/-- **C7** (amended): `validate_pipe_command` rejects when splitting
yields no segments (with the message `Empty command`); otherwise it
accepts exactly when the first segment passes `validate_k8s_command`
and every subsequent segment tokenizes to a nonempty token list whose
first token is in the Unix allow-list; and a rejection caused by a later
segment that the tokenizer accepts (empty, or head not allow-listed)
carries a message naming that segment's 1-based position in the pipe.
(A later segment the tokenizer rejects propagates the tokenizer's
message, which names no position - see the counterexample.) -/
theorem c7_pipe_validation_amended :
    ∀ s : String,
      (Security.validate_pipe_command s = .ok () ↔
        (Tools.split_pipe_command s ≠ []
          ∧ Security.validate_k8s_command
              ((Tools.split_pipe_command s).headD "") = .ok ()
          ∧ ∀ seg ∈ (Tools.split_pipe_command s).tail, goodSeg seg))
      ∧ (Tools.split_pipe_command s = [] →
          Security.validate_pipe_command s = .error "Empty command")
      ∧ (∀ j : Nat, j < (Tools.split_pipe_command s).tail.length →
          Security.validate_k8s_command
            ((Tools.split_pipe_command s).headD "") = .ok () →
          (∀ k, k < j →
            goodSeg ((Tools.split_pipe_command s).tail.getD k "")) →
          ¬ goodSeg ((Tools.split_pipe_command s).tail.getD j "") →
          (∃ parts,
            shlexSplit ((Tools.split_pipe_command s).tail.getD j "")
              = .ok parts) →
          ∃ msg, Security.validate_pipe_command s = .error msg ∧
            containsSubstr msg ("position " ++ toString (1 + j)) = true) := by
  intro s
  rcases hsegs : Tools.split_pipe_command s with _ | ⟨hd, tl⟩
  · simp only [Security.validate_pipe_command, hsegs, List.isEmpty_nil,
      if_true]
    refine ⟨?_, by simp, ?_⟩
    · constructor
      · intro hc
        exact Except.noConfusion hc
      · rintro ⟨hne, -, -⟩
        exact absurd rfl hne
    · intro j hj
      simp at hj
  · have hcase : (∃ e, Security.validate_k8s_command hd = .error e)
        ∨ Security.validate_k8s_command hd = .ok () := by
      cases h : Security.validate_k8s_command hd with
      | error e => exact Or.inl ⟨e, rfl⟩
      | ok u =>
        obtain ⟨⟩ := u
        exact Or.inr rfl
    simp only [Security.validate_pipe_command, hsegs, List.isEmpty_cons,
      Bool.false_eq_true, if_false, List.headD_cons, List.tail_cons]
    rcases hcase with ⟨e, hk⟩ | hk
    · simp only [hk]
      refine ⟨?_, by simp, ?_⟩
      · constructor
        · intro hc
          exact Except.noConfusion hc
        · rintro ⟨-, hvk, -⟩
          exact Except.noConfusion hvk
      · intro j hj hvk
        exact absurd hvk (by simp)
    · simp only [hk]
      refine ⟨?_, by simp, ?_⟩
      · rw [pipeSegLoop_ok_iff tl 1]
        simp
      · intro j hj hvk hgood hbad htok
        exact pipeSegLoop_pos tl 1 j hj hgood hbad htok

/-- **C7** (counterexample): on `kubectl get pods | grep (quote)a` the
second pipe segment has an unmatched quote; the pipe validator rejects
by propagating the tokenizer's `No closing quotation`, a message that
names no position - refuting the claim that every rejection of a later
segment carries its 1-based position. -/
theorem c7_counterexample_tokenizer_rejection_lacks_position :
    Tools.split_pipe_command ("kubectl get pods | grep " ++ sqs ++ "a")
      = ["kubectl get pods", "grep " ++ sqs ++ "a"]
    ∧ Security.validate_k8s_command "kubectl get pods" = .ok ()
    ∧ Security.validate_pipe_command ("kubectl get pods | grep " ++ sqs ++ "a")
      = .error "No closing quotation"
    ∧ containsSubstr "No closing quotation" "position" = false :=
  ⟨rfl, rfl, rfl, by decide⟩

/-- Witness for the amended C7 theorem: a fully valid pipe is accepted,
and the disallowed second segment of
`kubectl get pods | grepx file` is rejected with a message naming
position 1. -/
theorem c7_pipe_validation_amended_witness :
    (Security.validate_pipe_command "kubectl get pods | grep nginx" = .ok ())
    ∧ (∃ msg,
        Security.validate_pipe_command "kubectl get pods | grepx file"
          = .error msg ∧
        containsSubstr msg ("position " ++ toString (1 + 0)) = true) := by
  constructor
  · exact (c7_pipe_validation_amended "kubectl get pods | grep nginx").1.mpr
      ⟨by decide, rfl, by
        intro seg hseg
        simp only [show Tools.split_pipe_command "kubectl get pods | grep nginx"
            = ["kubectl get pods", "grep nginx"] from rfl] at hseg
        simp only [List.tail_cons, List.mem_singleton] at hseg
        subst hseg
        exact ⟨["grep", "nginx"], rfl, by simp, by decide⟩⟩
  · exact (c7_pipe_validation_amended "kubectl get pods | grepx file").2.2 0
      (by decide) rfl (fun k hk => absurd hk (by omega))
      (by
        rintro ⟨parts, hp, -, hmem⟩
        have hs : shlexSplit
            ((Tools.split_pipe_command "kubectl get pods | grepx file").tail.getD
              0 "") = .ok ["grepx", "file"] := rfl
        rw [hs] at hp
        injection hp with hp
        subst hp
        revert hmem
        decide)
      ⟨["grepx", "file"], rfl⟩


/-- **C8** (counterexample): the claim says `inject_context_namespace`
returns unparsable command text unchanged without raising, and re-joins
with shell-safe quoting.  The code does neither: on
`kubectl get pods (quote)x` the uncaught `shlex.split` `ValueError`
propagates, and a space-containing argument that was quoted in the
input (`app=my app`) is re-joined with plain spaces, so re-tokenizing
the output yields different tokens than the input had. -/
theorem c8_counterexample :
    CliExecutor.inject_context_namespace Tools.defaultConfig
        ("kubectl get pods " ++ sqs ++ "x") = .error "No closing quotation"
    ∧ CliExecutor.inject_context_namespace Tools.defaultConfig
        ("kubectl get pods -l " ++ sqs ++ "app=my app" ++ sqs)
      = .ok "kubectl --namespace=default get pods -l app=my app"
    ∧ shlexSplit ("kubectl get pods -l " ++ sqs ++ "app=my app" ++ sqs)
      = .ok ["kubectl", "get", "pods", "-l", "app=my app"]
    ∧ shlexSplit "kubectl --namespace=default get pods -l app=my app"
      = .ok ["kubectl", "--namespace=default", "get", "pods", "-l", "app=my",
             "app"] := by
  set_option maxRecDepth 4000 in
  exact ⟨rfl, rfl, rfl, rfl⟩

/-- **C8** (amended): `inject_context_namespace` propagates the
tokenizer ValueError on unparsable kubectl/istioctl command text (it is
not returned unchanged), returns non-kubectl/istioctl commands unchanged,
and re-joins the token list with single spaces without shell-safe
quoting, so an argument that was quoted in the input is not re-quoted in
the output. -/
theorem c8_inject_amended :
    (∀ (cfg : Tools.Config) (s e : String),
      shlexSplit s = .error e →
      (pyStartsWith s "kubectl" || pyStartsWith s "istioctl") = true →
      CliExecutor.inject_context_namespace cfg s = .error e)
    ∧ (∀ (cfg : Tools.Config) (s : String),
      (pyStartsWith s "kubectl" || pyStartsWith s "istioctl") = false →
      CliExecutor.inject_context_namespace cfg s = .ok s)
    ∧ CliExecutor.inject_context_namespace Tools.defaultConfig
        ("kubectl get pods -l " ++ sqs ++ "app=my app" ++ sqs)
      = .ok "kubectl --namespace=default get pods -l app=my app" := by
  refine ⟨?_, ?_, rfl⟩
  · intro cfg s e hsp hsw
    simp only [CliExecutor.inject_context_namespace, hsw, Bool.not_eq_true,
      not_true, Bool.false_eq_true, if_false, hsp]
  · intro cfg s hsw
    simp only [CliExecutor.inject_context_namespace, hsw, Bool.not_eq_true,
      not_false_iff, if_true]

/-- Witness for the amended C8 theorem at concrete inputs. -/
theorem c8_inject_amended_witness :
    CliExecutor.inject_context_namespace Tools.defaultConfig
        ("istioctl analyze " ++ sqs ++ "y") = .error "No closing quotation"
    ∧ CliExecutor.inject_context_namespace Tools.defaultConfig "helm list"
      = .ok "helm list" :=
  ⟨c8_inject_amended.1 Tools.defaultConfig ("istioctl analyze " ++ sqs ++ "y")
      "No closing quotation" rfl rfl,
   c8_inject_amended.2.1 Tools.defaultConfig "helm list" rfl⟩

/-- **C9** (confirmed): on a non-zero exit, `execute_command` classifies
the failure as an authentication error exactly when `is_auth_error`
holds of the captured stderr - that is, when the stderr contains,
case-insensitively, one of the nine fixed signatures - and then appends
the kubectl remediation hint mentioning `kubeconfig`; a non-matching
stderr produces the generic execution-error result carrying the stderr
itself. -/
theorem c9_auth_classification :
    (∀ stderr : String, CliExecutor.is_auth_error stderr = true ↔
      ∃ pat ∈ CliExecutor.auth_error_patterns,
        containsSubstr (pyLower stderr) (pyLower pat) = true)
    ∧ CliExecutor.auth_error_patterns.length = 9
    ∧ (∀ (rc : Int) (stdout stderr : String), rc ≠ 0 →
        (CliExecutor.is_auth_error stderr = true →
          CliExecutor.execute_command Tools.defaultConfig "kubectl get pods"
            (.completed rc stdout stderr)
          = .ok { status := "error",
                  output := "Authentication error: " ++ stderr
                    ++ "\nPlease check your kubeconfig." })
        ∧ (CliExecutor.is_auth_error stderr = false →
          CliExecutor.execute_command Tools.defaultConfig "kubectl get pods"
            (.completed rc stdout stderr)
          = .ok { status := "error",
                  output := if stderr = "" then
                    "Command failed with no error output" else stderr }))
    ∧ CliExecutor.is_auth_error "Unable to connect to the server" = true
    ∧ containsSubstr
        ("Authentication error: Unable to connect to the server"
          ++ "\nPlease check your kubeconfig.")
        "kubeconfig" = true := by
  refine ⟨?_, rfl, ?_, rfl, by decide⟩
  · intro stderr
    simp [CliExecutor.is_auth_error, List.any_eq_true]
  · intro rc stdout stderr hrc
    have hpipe : Tools.is_pipe_command "kubectl get pods" = false := rfl
    have hval : CliExecutor.validate_k8s_command "kubectl get pods"
        = .ok () := rfl
    have hinj : CliExecutor.inject_context_namespace Tools.defaultConfig
        "kubectl get pods" = .ok "kubectl --namespace=default get pods" := rfl
    have htool : CliExecutor.get_tool_from_command
        "kubectl --namespace=default get pods" = .ok (some "kubectl") := rfl
    constructor
    · intro hauth
      simp only [CliExecutor.execute_command, hpipe, Bool.false_eq_true,
        if_false, hval, hinj, CliExecutor.processProcOutcome, hauth, htool]
      rw [if_pos hrc]
      simp
    · intro hauth
      simp only [CliExecutor.execute_command, hpipe, hval, hinj,
        CliExecutor.processProcOutcome, hauth, Bool.false_eq_true, if_false]
      rw [if_pos hrc]

/-- Witness for C9: a kubectl command exiting 1 with stderr
`Unable to connect to the server` yields the authentication-error result
whose message contains `kubeconfig`; stderr `Pod not found` yields the
generic error result. -/
theorem c9_auth_classification_witness :
    CliExecutor.execute_command Tools.defaultConfig "kubectl get pods"
        (.completed 1 "" "Unable to connect to the server")
      = .ok { status := "error",
              output := "Authentication error: "
                ++ "Unable to connect to the server"
                ++ "\nPlease check your kubeconfig." }
    ∧ CliExecutor.execute_command Tools.defaultConfig "kubectl get pods"
        (.completed 1 "" "Pod not found")
      = .ok { status := "error", output := "Pod not found" } := by
  constructor
  · exact (c9_auth_classification.2.2.1 1 "" "Unable to connect to the server"
      (by decide)).1 (by decide)
  · have h := (c9_auth_classification.2.2.1 1 "" "Pod not found"
      (by decide)).2 (by decide)
    simpa using h

/-- **C10** (confirmed): for every configured maximum and captured
stdout, both `execute_piped_command` and `execute_command` return, on
the success path, an output of length at most
`max + len("(newline)... (output truncated)")` that ends with the
truncation marker whenever the stdout exceeds the maximum, and return
the stdout unmodified when it is within the maximum. -/
theorem c10_truncation :
    ∀ (m : Nat) (stdout pc : String),
      (stdout.length > m →
        ((Tools.execute_piped_command
            { maxOutputSize := m, timeoutSecs := 300, context := none,
              k8sNamespace := "default" }
            pc (.completed 0 stdout "")).output.length
            ≤ m + ("\n... (output truncated)").length
        ∧ (∃ pre, (Tools.execute_piped_command
            { maxOutputSize := m, timeoutSecs := 300, context := none,
              k8sNamespace := "default" }
            pc (.completed 0 stdout "")).output = pre ++ "... (output truncated)")
        ∧ ∃ r, CliExecutor.execute_command
            { maxOutputSize := m, timeoutSecs := 300, context := none,
              k8sNamespace := "default" }
            "kubectl get pods" (.completed 0 stdout "") = .ok r
          ∧ r.output.length ≤ m + ("\n... (output truncated)").length
          ∧ ∃ pre, r.output = pre ++ "... (output truncated)"))
      ∧ (stdout.length ≤ m →
        (Tools.execute_piped_command
            { maxOutputSize := m, timeoutSecs := 300, context := none,
              k8sNamespace := "default" }
            pc (.completed 0 stdout "")).output = stdout
        ∧ ∃ r, CliExecutor.execute_command
            { maxOutputSize := m, timeoutSecs := 300, context := none,
              k8sNamespace := "default" }
            "kubectl get pods" (.completed 0 stdout "") = .ok r
          ∧ r.output = stdout) := by
  intro m stdout pc
  have hpiped : Tools.execute_piped_command
      { maxOutputSize := m, timeoutSecs := 300, context := none,
        k8sNamespace := "default" } pc (.completed 0 stdout "")
      = { status := "success",
          output := if stdout.length > m then
              pySlice stdout m ++ "\n... (output truncated)"
            else stdout,
          exitCode := some 0 } := by
    simp [Tools.execute_piped_command]
  have hpipe : Tools.is_pipe_command "kubectl get pods" = false := rfl
  have hval : CliExecutor.validate_k8s_command "kubectl get pods"
      = .ok () := rfl
  have hinj : CliExecutor.inject_context_namespace
      { maxOutputSize := m, timeoutSecs := 300, context := none,
        k8sNamespace := "default" } "kubectl get pods"
      = .ok "kubectl --namespace=default get pods" := rfl
  have hexec : CliExecutor.execute_command
      { maxOutputSize := m, timeoutSecs := 300, context := none,
        k8sNamespace := "default" } "kubectl get pods"
      (.completed 0 stdout "")
      = .ok { status := "success",
              output := if stdout.length > m then
                  pySlice stdout m ++ "\n... (output truncated)"
                else stdout } := by
    simp [CliExecutor.execute_command, hpipe, hval, hinj,
      CliExecutor.processProcOutcome]
  have hmarker : ("\n... (output truncated)" : String)
      = "\n" ++ "... (output truncated)" := by decide
  have hlen : ∀ h : stdout.length > m,
      (pySlice stdout m ++ "\n... (output truncated)").length
        ≤ m + ("\n... (output truncated)").length := by
    intro h
    rw [String.length_append]
    have : (pySlice stdout m).length ≤ m := by
      simp only [pySlice, String.length]
      simp [List.length_take]
    omega
  have hends : pySlice stdout m ++ "\n... (output truncated)"
      = (pySlice stdout m ++ "\n") ++ "... (output truncated)" := by
    rw [hmarker, String.append_assoc]
  constructor
  · intro h
    refine ⟨?_, ?_, ?_⟩
    · rw [hpiped]
      simp only [if_pos h]
      exact hlen h
    · rw [hpiped]
      simp only [if_pos h]
      exact ⟨_, hends⟩
    · refine ⟨_, hexec, ?_, ?_⟩
      · simp only [if_pos h]
        exact hlen h
      · simp only [if_pos h]
        exact ⟨_, hends⟩
  · intro h
    have hc : ¬ stdout.length > m := by omega
    refine ⟨?_, ⟨_, hexec, ?_⟩⟩
    · rw [hpiped]
      simp [if_neg hc]
    · simp [if_neg hc]

/-- Witness for C10 with maximum 5: a 10-character stdout is truncated
and marked, a 2-character stdout is returned unmodified. -/
theorem c10_truncation_witness :
    (Tools.execute_piped_command
        { maxOutputSize := 5, timeoutSecs := 300, context := none,
          k8sNamespace := "default" }
        "kubectl get pods | grep nginx" (.completed 0 "0123456789" "")).output.length
      ≤ 5 + ("\n... (output truncated)").length
    ∧ (∃ pre, (Tools.execute_piped_command
        { maxOutputSize := 5, timeoutSecs := 300, context := none,
          k8sNamespace := "default" }
        "kubectl get pods | grep nginx" (.completed 0 "0123456789" "")).output
        = pre ++ "... (output truncated)")
    ∧ (Tools.execute_piped_command
        { maxOutputSize := 5, timeoutSecs := 300, context := none,
          k8sNamespace := "default" }
        "kubectl get pods | grep nginx" (.completed 0 "ok" "")).output
      = "ok" := by
  refine ⟨?_, ?_, ?_⟩
  · exact ((c10_truncation 5 "0123456789" "kubectl get pods | grep nginx").1
      (by decide)).1
  · exact ((c10_truncation 5 "0123456789" "kubectl get pods | grep nginx").1
      (by decide)).2.1
  · exact ((c10_truncation 5 "ok" "kubectl get pods | grep nginx").2
      (by decide)).1

end K8sMcp
